import Mathlib

/-!
Shallow embedding of LOOT's CEF query dispatch layer
(`src/gui/cef/query/query_handler.cpp`): the `QueryHandler::OnQuery`
dispatcher and the `QueryHandler::createQuery` factory, together with the
yaml-cpp node/extraction behaviour they rely on.

Modelling conventions:
- A yaml-cpp `YAML::Node` is a `Value`: undefined (zombie) node, scalar,
  sequence, or mapping, each carrying a source `Mark`.  JSON booleans and
  strings both decode to scalars, as yaml-cpp does; typed extraction
  (`as<T>`) decides their interpretation.
- C++ exceptions become `Except YamlError`; `YAML::ParserException` and
  `YAML::RepresentationException` (including its subclasses `InvalidNode`
  and `BadConversion`) are the two constructors.
- The raw request string is abstracted as `Raw`: either a payload the JSON
  parser rejects (with the parser's mark and message) or a decoded `Value`.
- Effects of `OnQuery` (synchronous result-sink calls, tasks posted via
  `CefPostTask`) are collected in a `HandleResult` record.
-/

namespace Loot

/-- yaml-cpp `YAML::Mark`: a source position (pos/line/column). -/
structure Mark where
  pos : Int
  line : Int
  column : Int
deriving DecidableEq

/-- `YAML::Mark::null_mark()`: the "no position" marker, all fields -1. -/
def Mark.null_mark : Mark := ⟨-1, -1, -1⟩

/-- `YAML::Mark::is_null()`. -/
def Mark.is_null (m : Mark) : Bool :=
  m.pos == -1 && m.line == -1 && m.column == -1

/-- A decoded yaml-cpp node: undefined (the zombie node returned when a
key/index lookup misses), scalar, sequence, or mapping, with its mark. -/
inductive Value where
  | undefined : Value
  | scalar : Mark → String → Value
  | seq : Mark → List Value → Value
  | map : Mark → List (String × Value) → Value

/-- `Node::Mark()`; the undefined node reports the null mark. -/
def Value.mark : Value → Mark
  | .undefined => Mark.null_mark
  | .scalar m _ => m
  | .seq m _ => m
  | .map m _ => m

/-- `node[key]` for a string key: mapping lookup, undefined on a miss or on
a non-mapping node. -/
def Value.get (v : Value) (key : String) : Value :=
  match v with
  | .map _ kvs =>
    match kvs.lookup key with
    | some x => x
    | none => .undefined
  | _ => .undefined

/-- `node[i]` for an integer index: sequence element, undefined when out of
range or on a non-sequence node. -/
def Value.nth (v : Value) (i : Nat) : Value :=
  match v with
  | .seq _ xs =>
    match xs.get? i with
    | some x => x
    | none => .undefined
  | _ => .undefined

/-- yaml-cpp exceptions that can escape decode / typed extraction.
`representationException` also stands for its subclasses `InvalidNode` and
`BadConversion`; every one carries a mark and a message (`e.msg`). -/
inductive YamlError where
  | parserException (mark : Mark) (msg : String)
  | representationException (mark : Mark) (msg : String)
deriving DecidableEq

/-- The `mark` field of a yaml-cpp exception. -/
def YamlError.mark : YamlError → Mark
  | .parserException m _ => m
  | .representationException m _ => m

/-- The `msg` field of a yaml-cpp exception. -/
def YamlError.msg : YamlError → String
  | .parserException _ s => s
  | .representationException _ s => s

/-- `YAML::Exception::what()`: `msg` alone when the mark is null, otherwise
the mark is formatted into the message (`build_what`). -/
def YamlError.what (e : YamlError) : String :=
  if e.mark.is_null then e.msg
  else "yaml-cpp: error at line " ++ toString (e.mark.line + 1) ++
       ", column " ++ toString (e.mark.column + 1) ++ ": " ++ e.msg

/-- `YAML::ErrorMsg::BAD_CONVERSION`. -/
def badConversionMsg : String := "bad conversion"

/-- `YAML::ErrorMsg::INVALID_NODE` (thrown by `Node::as` on an undefined
node). -/
def invalidNodeMsg : String :=
  "invalid node; this may result from using a map iterator as a sequence iterator, or vice-versa"

/-- `node.as<std::string>()`: any scalar converts to its string; an
undefined node throws `InvalidNode`, other shapes throw `BadConversion`
carrying the node's mark. -/
def asString : Value → Except YamlError String
  | .scalar _ s => .ok s
  | .undefined => .error (.representationException Mark.null_mark invalidNodeMsg)
  | v => .error (.representationException v.mark badConversionMsg)

/-- The scalar spellings `convert<bool>::decode` accepts (yaml-cpp's
y/n/yes/no/true/false/on/off in lower, first-upper and upper case). -/
def boolNames : List (String × Bool) :=
  [("y", true), ("n", false), ("yes", true), ("no", false),
   ("true", true), ("false", false), ("on", true), ("off", false),
   ("Y", true), ("N", false), ("Yes", true), ("No", false),
   ("True", true), ("False", false), ("On", true), ("Off", false),
   ("YES", true), ("NO", false), ("TRUE", true), ("FALSE", false),
   ("ON", true), ("OFF", false)]

/-- `node.as<bool>()`: a recognised boolean scalar converts, anything else
fails with the shape-mismatch exceptions of `Node::as`. -/
def asBool : Value → Except YamlError Bool
  | .scalar m s =>
    match boolNames.lookup s with
    | some b => .ok b
    | none => .error (.representationException m badConversionMsg)
  | .undefined => .error (.representationException Mark.null_mark invalidNodeMsg)
  | v => .error (.representationException v.mark badConversionMsg)

/-- Element-wise conversion of a sequence's nodes to strings, in order;
the first failing element's exception propagates
(`convert<std::vector<std::string>>` iterates and calls `as<std::string>`
on each element). -/
def asStringSeq : List Value → Except YamlError (List String)
  | [] => .ok []
  | v :: vs =>
    match asString v with
    | .error e => .error e
    | .ok s =>
      match asStringSeq vs with
      | .error e => .error e
      | .ok rest => .ok (s :: rest)

/-- `node.as<std::vector<std::string>>()`: the node must be a sequence and
every element must convert to a string. -/
def asStringList : Value → Except YamlError (List String)
  | .seq _ vs => asStringSeq vs
  | .undefined => .error (.representationException Mark.null_mark invalidNodeMsg)
  | v => .error (.representationException v.mark badConversionMsg)

/-- Modelled from the spec: `PluginMetadata` and its YAML conversion live
outside `src/` ("`metadata` (structured plugin-metadata document)", §6).
We model the extracted document as its name plus remaining fields. -/
structure PluginMetadata where
  name : String
  fields : List (String × Value)

/-- Modelled from the spec: `node.as<PluginMetadata>()` — extraction of a
structured plugin-metadata document, failing with a shape-mismatch
exception that carries the source node's mark when the document is not a
mapping with a string `name` field (§4.2: "extraction failure surfaces as
`ArgumentShapeError` carrying the original cause"). -/
def asPluginMetadata : Value → Except YamlError PluginMetadata
  | .map m kvs =>
    match (Value.map m kvs).get "name" with
    | .scalar _ n => .ok ⟨n, kvs⟩
    | _ => .error (.representationException m "'name' key missing from 'plugin metadata' object")
  | .undefined => .error (.representationException Mark.null_mark invalidNodeMsg)
  | v => .error (.representationException v.mark badConversionMsg)

/-- Modelled from the spec: `LootSettings` is defined outside `src/`; the
close-settings case "must fully construct and populate a nested
configuration object from a structured argument before constructing the
Command" (§4.2).  The populated settings object wraps the parsed
sub-document. -/
structure LootSettings where
  document : Value

/-- Modelled from the spec: `LootSettings::load(node)` parses the
sub-document into a settings value (§4.2 two-step build, step one). -/
def LootSettings.load (node : Value) : LootSettings := ⟨node⟩

/-- The constructed Command (`CefRefPtr<Query>` subclasses): one variant
per recognised name, holding exactly the extracted arguments.  The shared
`lootState_`, `browser` and `frame` context references are identical for
every variant and are left implicit. -/
inductive Query where
  | applySort (plugins : List String)
  | cancelFind
  | cancelSort
  | changeGame (gameFolder : String)
  | clearAllMetadata
  | clearPluginMetadata (pluginName : String)
  | closeSettings (settings : LootSettings)
  | copyContent (content : Value)
  | copyLoadOrder (plugins : List String)
  | copyMetadata (pluginName : String)
  | discardUnappliedChanges
  | editorClosed (applyEdits : Bool) (metadata : PluginMetadata)
  | editorOpened
  | getConflictingPlugins (pluginName : String)
  | getGameTypes
  | getGameData
  | getInitErrors
  | getInstalledGames
  | getLanguages
  | getSettings
  | getVersion
  | openLogLocation
  | openReadme
  | redatePlugins
  | saveFilterState (filterName : String) (state : Bool)
  | sortPlugins
  | updateMasterlist

/-- A raw request string, abstracted by what `JSON::parse` does with it:
either the parser rejects it (throwing `YAML::ParserException` with some
mark and message) or it decodes to a `Value`. -/
inductive Raw where
  | malformed (mark : Mark) (msg : String)
  | doc (v : Value)

namespace JSON

/-- Modelled from the spec: `JSON::parse` (in `gui/cef/query/json.h`,
outside `src/`) turns the raw textual payload into a structured value and
"fails with `DecodeError` when the payload is not well-formed structured
data" (§4.1). -/
def parse : Raw → Except YamlError Value
  | .malformed m s => .error (.parserException m s)
  | .doc v => .ok v

end JSON

namespace QueryHandler

/-- The body of the `try` block in `createQuery`'s `editorClosed` branch:
extract `args[0]["applyEdits"]` as a bool, then `args[0]["metadata"]` as a
plugin-metadata document, and build the command. -/
def editorClosedInner (request : Value) : Except YamlError Query :=
  match asBool (((request.get "args").nth 0).get "applyEdits") with
  | .error e => .error e
  | .ok applyEdits =>
    match asPluginMetadata (((request.get "args").nth 0).get "metadata") with
    | .error e => .error e
    | .ok metadata => .ok (.editorClosed applyEdits metadata)

/-- The exact-string-equality if/else-if chain of
`QueryHandler::createQuery`, after the request has been parsed and its
`name` field extracted.  `.ok none` is the final `return nullptr`. -/
def createQueryForName (request : Value) (name : String) :
    Except YamlError (Option Query) :=
  if name = "applySort" then
    match asStringList ((request.get "args").nth 0) with
    | .error e => .error e
    | .ok plugins => .ok (some (.applySort plugins))
  else if name = "cancelFind" then
    .ok (some .cancelFind)
  else if name = "cancelSort" then
    .ok (some .cancelSort)
  else if name = "changeGame" then
    match asString ((request.get "args").nth 0) with
    | .error e => .error e
    | .ok folder => .ok (some (.changeGame folder))
  else if name = "clearAllMetadata" then
    .ok (some .clearAllMetadata)
  else if name = "clearPluginMetadata" then
    match asString ((request.get "args").nth 0) with
    | .error e => .error e
    | .ok plugin => .ok (some (.clearPluginMetadata plugin))
  else if name = "closeSettings" then
    let node := (request.get "args").nth 0
    let settings := LootSettings.load node
    .ok (some (.closeSettings settings))
  else if name = "copyContent" then
    .ok (some (.copyContent ((request.get "args").nth 0)))
  else if name = "copyLoadOrder" then
    match asStringList ((request.get "args").nth 0) with
    | .error e => .error e
    | .ok plugins => .ok (some (.copyLoadOrder plugins))
  else if name = "copyMetadata" then
    match asString ((request.get "args").nth 0) with
    | .error e => .error e
    | .ok plugin => .ok (some (.copyMetadata plugin))
  else if name = "discardUnappliedChanges" then
    .ok (some .discardUnappliedChanges)
  else if name = "editorClosed" then
    match editorClosedInner request with
    | .ok q => .ok (some q)
    | .error (.representationException _ msg) =>
      .error (.representationException Mark.null_mark msg)
    | .error e => .error e
  else if name = "editorOpened" then
    .ok (some .editorOpened)
  else if name = "getConflictingPlugins" then
    match asString ((request.get "args").nth 0) with
    | .error e => .error e
    | .ok plugin => .ok (some (.getConflictingPlugins plugin))
  else if name = "getGameTypes" then
    .ok (some .getGameTypes)
  else if name = "getGameData" then
    .ok (some .getGameData)
  else if name = "getInitErrors" then
    .ok (some .getInitErrors)
  else if name = "getInstalledGames" then
    .ok (some .getInstalledGames)
  else if name = "getLanguages" then
    .ok (some .getLanguages)
  else if name = "getSettings" then
    .ok (some .getSettings)
  else if name = "getVersion" then
    .ok (some .getVersion)
  else if name = "openLogLocation" then
    .ok (some .openLogLocation)
  else if name = "openReadme" then
    .ok (some .openReadme)
  else if name = "redatePlugins" then
    .ok (some .redatePlugins)
  else if name = "saveFilterState" then
    match asString ((request.get "args").nth 0) with
    | .error e => .error e
    | .ok fname =>
      match asBool ((request.get "args").nth 1) with
      | .error e => .error e
      | .ok state => .ok (some (.saveFilterState fname state))
  else if name = "sortPlugins" then
    .ok (some .sortPlugins)
  else if name = "updateMasterlist" then
    .ok (some .updateMasterlist)
  else
    .ok none

/-- `QueryHandler::createQuery`: parse the request string, extract the
`name` field as a string, then dispatch on the name.  Any yaml-cpp
exception propagates to the caller. -/
def createQuery (requestString : Raw) : Except YamlError (Option Query) :=
  match JSON.parse requestString with
  | .error e => .error e
  | .ok request =>
    match asString (request.get "name") with
    | .error e => .error e
    | .ok name => createQueryForName request name

/-- CEF thread identifiers used by the handler: `OnQuery` runs on the UI
thread, work is posted to the file thread. -/
inductive CefThreadId where
  | TID_UI
  | TID_FILE
deriving DecidableEq

/-- A call made on the CefMessageRouter result callback. -/
inductive SinkCall where
  | success (payload : String)
  | failure (code : Int) (message : String)
deriving DecidableEq

/-- The observable outcome of one `OnQuery` invocation: its boolean return
value, the synchronous calls it made on the callback, and the tasks it
posted via `CefPostTask`. -/
structure HandleResult where
  accepted : Bool
  sinkCalls : List SinkCall
  posted : List (CefThreadId × Query)

/-- The thread `OnQuery` itself executes on (CEF delivers browser-side
query callbacks on the UI thread). -/
def onQueryCallerThread : CefThreadId := .TID_UI

/-- `QueryHandler::OnQuery`: build the query inside a `try`; a null query
returns false; a built query is posted to the file thread with the
callback and true is returned; any `std::exception` is caught, reported as
`callback->Failure(-1, e.what())`, and true is returned. -/
def OnQuery (request : Raw) : HandleResult :=
  match createQuery request with
  | .error e => ⟨true, [.failure (-1) e.what], []⟩
  | .ok none => ⟨false, [], []⟩
  | .ok (some query) => ⟨true, [], [(.TID_FILE, query)]⟩

/-- The closed set of recognised command names, in the order of
`createQuery`'s if/else-if chain. -/
def recognizedNames : List String :=
  ["applySort", "cancelFind", "cancelSort", "changeGame",
   "clearAllMetadata", "clearPluginMetadata", "closeSettings",
   "copyContent", "copyLoadOrder", "copyMetadata",
   "discardUnappliedChanges", "editorClosed", "editorOpened",
   "getConflictingPlugins", "getGameTypes", "getGameData",
   "getInitErrors", "getInstalledGames", "getLanguages", "getSettings",
   "getVersion", "openLogLocation", "openReadme", "redatePlugins",
   "saveFilterState", "sortPlugins", "updateMasterlist"]

end QueryHandler

/-! Concrete sample requests used to instantiate the theorems below. -/

/-- A request carrying only a `name` field. -/
def vNamed (s : String) : Value :=
  .map ⟨0, 0, 0⟩ [("name", .scalar ⟨1, 0, 1⟩ s)]

/-- A request carrying a `name` field and a single-element `args` array. -/
def vWithArg (s : String) (arg : Value) : Value :=
  .map ⟨0, 0, 0⟩ [("name", .scalar ⟨1, 0, 1⟩ s), ("args", .seq ⟨2, 0, 2⟩ [arg])]

/-- `{"name":"applySort","args":[["a.esp","b.esp"]]}`. -/
def vApplySort : Value :=
  vWithArg "applySort"
    (.seq ⟨3, 0, 3⟩ [.scalar ⟨4, 0, 4⟩ "a.esp", .scalar ⟨5, 0, 5⟩ "b.esp"])

/-- `{"name":"saveFilterState","args":["myFilter",true]}`. -/
def vSaveFilterOk : Value :=
  .map ⟨0, 0, 0⟩ [("name", .scalar ⟨1, 0, 1⟩ "saveFilterState"),
    ("args", .seq ⟨2, 0, 2⟩ [.scalar ⟨3, 0, 3⟩ "myFilter", .scalar ⟨4, 0, 4⟩ "true"])]

/-- `{"name":"saveFilterState","args":["myFilter","notABoolean"]}`. -/
def vSaveFilterBad : Value :=
  .map ⟨0, 0, 0⟩ [("name", .scalar ⟨1, 0, 1⟩ "saveFilterState"),
    ("args", .seq ⟨2, 0, 2⟩ [.scalar ⟨3, 0, 3⟩ "myFilter", .scalar ⟨9, 0, 9⟩ "notABoolean"])]

/-- An `editorClosed` request whose `args[0].metadata` is malformed (a bare
scalar at a real source position instead of a metadata document). -/
def vEditorClosedBad : Value :=
  vWithArg "editorClosed"
    (.map ⟨3, 0, 3⟩ [("applyEdits", .scalar ⟨4, 0, 4⟩ "true"),
                     ("metadata", .scalar ⟨7, 2, 4⟩ "oops")])

/-- An `editorClosed` request with well-formed arguments. -/
def vEditorClosedOk : Value :=
  vWithArg "editorClosed"
    (.map ⟨3, 0, 3⟩ [("applyEdits", .scalar ⟨4, 0, 4⟩ "true"),
                     ("metadata", .map ⟨5, 0, 5⟩ [("name", .scalar ⟨6, 0, 6⟩ "a.esp")])])

/-- A settings sub-document for the `closeSettings` samples. -/
def vSettingsDoc : Value :=
  .map ⟨3, 0, 3⟩ [("enableDebugLogging", .scalar ⟨4, 0, 4⟩ "true")]

open QueryHandler

/-- Reducing `createQuery` on a decodable payload whose `name` field
extracts to `s`: the dispatch chain runs on `s`. -/
theorem createQuery_doc (v : Value) (s : String)
    (h : asString (v.get "name") = .ok s) :
    createQuery (.doc v) = createQueryForName v s := by
  show (match asString (v.get "name") with
        | .error e => .error e
        | .ok name => createQueryForName v name) = createQueryForName v s
  rw [h]

/-- A name equal to none of the 27 chain literals falls through every
`else if` to the final `return nullptr`. -/
theorem createQueryForName_unrecognized (request : Value) (name : String)
    (h : name ∉ recognizedNames) :
    createQueryForName request name = .ok none := by
  simp only [recognizedNames, List.mem_cons, List.not_mem_nil, or_false,
    not_or] at h
  obtain ⟨h1, h2, h3, h4, h5, h6, h7, h8, h9, h10, h11, h12, h13, h14, h15,
    h16, h17, h18, h19, h20, h21, h22, h23, h24, h25, h26, h27⟩ := h
  unfold createQueryForName
  rw [if_neg h1, if_neg h2, if_neg h3, if_neg h4, if_neg h5, if_neg h6,
    if_neg h7, if_neg h8, if_neg h9, if_neg h10, if_neg h11, if_neg h12,
    if_neg h13, if_neg h14, if_neg h15, if_neg h16, if_neg h17, if_neg h18,
    if_neg h19, if_neg h20, if_neg h21, if_neg h22, if_neg h23, if_neg h24,
    if_neg h25, if_neg h26, if_neg h27]

/-- Claim C1: whenever decode or command construction raises an error,
`OnQuery` returns true, makes exactly one synchronous call on the result
sink — `Failure` with the fixed generic code `-1` and the error's message —
schedules no task, and (being a total function of the error) lets nothing
propagate past it. -/
theorem c1_failure_delivered_once (raw : Raw) (e : YamlError)
    (h : createQuery raw = .error e) :
    OnQuery raw = ⟨true, [.failure (-1) e.what], []⟩ := by
  unfold OnQuery
  rw [h]

/-- Witness for C1 at a payload the JSON parser rejects. -/
theorem c1_failure_delivered_once_witness :
    OnQuery (Raw.malformed ⟨10, 2, 4⟩ "oops") =
      ⟨true, [.failure (-1) "yaml-cpp: error at line 3, column 5: oops"], []⟩ :=
  c1_failure_delivered_once (Raw.malformed ⟨10, 2, 4⟩ "oops")
    (.parserException ⟨10, 2, 4⟩ "oops") rfl

/-- Claim C2: a well-formed request whose name is outside the recognised
set makes the factory return none (not an error), and `OnQuery` then
returns false having made no sink call and posted no task. -/
theorem c2_unrecognized_name (v : Value) (s : String)
    (hname : asString (v.get "name") = .ok s)
    (hs : s ∉ recognizedNames) :
    createQuery (.doc v) = .ok none ∧ OnQuery (.doc v) = ⟨false, [], []⟩ := by
  have hc : createQuery (.doc v) = .ok none := by
    rw [createQuery_doc v s hname]
    exact createQueryForName_unrecognized v s hs
  refine ⟨hc, ?_⟩
  unfold OnQuery
  rw [hc]

/-- Witness for C2 at the unrecognised name `"bogus"`. -/
theorem c2_unrecognized_name_witness :
    createQuery (.doc (vNamed "bogus")) = .ok none ∧
      OnQuery (.doc (vNamed "bogus")) = ⟨false, [], []⟩ :=
  c2_unrecognized_name (vNamed "bogus") "bogus" rfl (by decide)

/-- Claim C3: for every request whose outcome is construction success,
decode failure or argument-shape failure (that is, every outcome other
than the factory's "none"), `OnQuery` returns true. -/
theorem c3_accepted_true (raw : Raw) (h : createQuery raw ≠ .ok none) :
    (OnQuery raw).accepted = true := by
  cases hc : createQuery raw with
  | error e =>
    unfold OnQuery
    rw [hc]
  | ok o =>
    cases o with
    | none => exact absurd hc h
    | some q =>
      unfold OnQuery
      rw [hc]

/-- Witness for C3 at a malformed payload (a failure outcome). -/
theorem c3_accepted_true_witness :
    (OnQuery (Raw.malformed ⟨0, 0, 0⟩ "junk")).accepted = true :=
  c3_accepted_true (Raw.malformed ⟨0, 0, 0⟩ "junk")
    (fun hx => Except.noConfusion hx)

/-- Claim C4: a recognised name with well-formed arguments yields exactly
one constructed command; `OnQuery` returns true, makes no synchronous sink
call, and posts exactly one execution task for that command to the file
thread, which is distinct from the thread `OnQuery` runs on. -/
theorem c4_schedules_one_task (raw : Raw) (q : Query)
    (h : createQuery raw = .ok (some q)) :
    OnQuery raw = ⟨true, [], [(.TID_FILE, q)]⟩ ∧
      CefThreadId.TID_FILE ≠ onQueryCallerThread := by
  refine ⟨?_, by decide⟩
  unfold OnQuery
  rw [h]

/-- Witness for C4 at `{"name":"getVersion"}`. -/
theorem c4_schedules_one_task_witness :
    OnQuery (.doc (vNamed "getVersion")) =
        ⟨true, [], [(.TID_FILE, Query.getVersion)]⟩ ∧
      CefThreadId.TID_FILE ≠ onQueryCallerThread :=
  c4_schedules_one_task (.doc (vNamed "getVersion")) Query.getVersion rfl

/-- Claim C5: when the nested extraction inside the `editorClosed` branch
fails with a shape-mismatch exception carrying mark `m` and message `s`,
construction fails with a shape-mismatch exception whose message is `s`
unchanged and whose mark is the null ("no position") marker, not `m`. -/
theorem c5_editor_closed_rewrap (v : Value) (m : Mark) (s : String)
    (hname : asString (v.get "name") = .ok "editorClosed")
    (hinner : editorClosedInner v = .error (.representationException m s)) :
    createQuery (.doc v) = .error (.representationException Mark.null_mark s) := by
  have hred : createQueryForName v "editorClosed" =
      (match editorClosedInner v with
       | Except.ok q => Except.ok (some q)
       | Except.error (YamlError.representationException _ msg) =>
         Except.error (YamlError.representationException Mark.null_mark msg)
       | Except.error e => Except.error e) := rfl
  rw [createQuery_doc v "editorClosed" hname, hred, hinner]

/-- Witness for C5 at an `editorClosed` request whose metadata field fails
to extract with a non-null source mark, showing the mark is stripped and
the message preserved. -/
theorem c5_editor_closed_rewrap_witness :
    createQuery (.doc vEditorClosedBad) =
        .error (.representationException Mark.null_mark badConversionMsg) ∧
      (Mark.mk 7 2 4 ≠ Mark.null_mark ∧
        editorClosedInner vEditorClosedBad =
          .error (.representationException ⟨7, 2, 4⟩ badConversionMsg)) :=
  ⟨c5_editor_closed_rewrap vEditorClosedBad ⟨7, 2, 4⟩ badConversionMsg rfl rfl,
   by decide, rfl⟩

/-- Claim C6: the factory constructs a command exactly for the closed
27-name set: every well-formed request with a name outside the set yields
none, and for every name in the set some well-formed request yields a
constructed command.  Matching is exact string equality (the chain tests
`name = literal`). -/
theorem c6_recognized_name_set :
    (∀ v s, asString (Value.get v "name") = .ok s → s ∉ recognizedNames →
      createQuery (.doc v) = .ok none) ∧
    (∀ s ∈ recognizedNames, ∃ v q,
      asString (Value.get v "name") = .ok s ∧
      createQuery (.doc v) = .ok (some q)) := by
  constructor
  · intro v s hname hs
    rw [createQuery_doc v s hname]
    exact createQueryForName_unrecognized v s hs
  · intro s hs
    simp only [recognizedNames, List.mem_cons, List.not_mem_nil,
      or_false] at hs
    rcases hs with rfl | rfl | rfl | rfl | rfl | rfl | rfl | rfl | rfl |
      rfl | rfl | rfl | rfl | rfl | rfl | rfl | rfl | rfl | rfl | rfl |
      rfl | rfl | rfl | rfl | rfl | rfl | rfl
    · exact ⟨vApplySort, Query.applySort ["a.esp", "b.esp"], rfl, rfl⟩
    · exact ⟨vNamed "cancelFind", Query.cancelFind, rfl, rfl⟩
    · exact ⟨vNamed "cancelSort", Query.cancelSort, rfl, rfl⟩
    · exact ⟨vWithArg "changeGame" (.scalar ⟨3, 0, 3⟩ "Skyrim"),
        Query.changeGame "Skyrim", rfl, rfl⟩
    · exact ⟨vNamed "clearAllMetadata", Query.clearAllMetadata, rfl, rfl⟩
    · exact ⟨vWithArg "clearPluginMetadata" (.scalar ⟨3, 0, 3⟩ "a.esp"),
        Query.clearPluginMetadata "a.esp", rfl, rfl⟩
    · exact ⟨vWithArg "closeSettings" vSettingsDoc,
        Query.closeSettings ⟨vSettingsDoc⟩, rfl, rfl⟩
    · exact ⟨vWithArg "copyContent" (.scalar ⟨3, 0, 3⟩ "text"),
        Query.copyContent (.scalar ⟨3, 0, 3⟩ "text"), rfl, rfl⟩
    · exact ⟨vWithArg "copyLoadOrder" (.seq ⟨3, 0, 3⟩ [.scalar ⟨4, 0, 4⟩ "a.esp"]),
        Query.copyLoadOrder ["a.esp"], rfl, rfl⟩
    · exact ⟨vWithArg "copyMetadata" (.scalar ⟨3, 0, 3⟩ "a.esp"),
        Query.copyMetadata "a.esp", rfl, rfl⟩
    · exact ⟨vNamed "discardUnappliedChanges", Query.discardUnappliedChanges,
        rfl, rfl⟩
    · exact ⟨vEditorClosedOk,
        Query.editorClosed true ⟨"a.esp", [("name", .scalar ⟨6, 0, 6⟩ "a.esp")]⟩,
        rfl, rfl⟩
    · exact ⟨vNamed "editorOpened", Query.editorOpened, rfl, rfl⟩
    · exact ⟨vWithArg "getConflictingPlugins" (.scalar ⟨3, 0, 3⟩ "a.esp"),
        Query.getConflictingPlugins "a.esp", rfl, rfl⟩
    · exact ⟨vNamed "getGameTypes", Query.getGameTypes, rfl, rfl⟩
    · exact ⟨vNamed "getGameData", Query.getGameData, rfl, rfl⟩
    · exact ⟨vNamed "getInitErrors", Query.getInitErrors, rfl, rfl⟩
    · exact ⟨vNamed "getInstalledGames", Query.getInstalledGames, rfl, rfl⟩
    · exact ⟨vNamed "getLanguages", Query.getLanguages, rfl, rfl⟩
    · exact ⟨vNamed "getSettings", Query.getSettings, rfl, rfl⟩
    · exact ⟨vNamed "getVersion", Query.getVersion, rfl, rfl⟩
    · exact ⟨vNamed "openLogLocation", Query.openLogLocation, rfl, rfl⟩
    · exact ⟨vNamed "openReadme", Query.openReadme, rfl, rfl⟩
    · exact ⟨vNamed "redatePlugins", Query.redatePlugins, rfl, rfl⟩
    · exact ⟨vSaveFilterOk, Query.saveFilterState "myFilter" true, rfl, rfl⟩
    · exact ⟨vNamed "sortPlugins", Query.sortPlugins, rfl, rfl⟩
    · exact ⟨vNamed "updateMasterlist", Query.updateMasterlist, rfl, rfl⟩

/-- Witness for C6: the unrecognised name `"getMetadata"` yields none, and
`"getVersion"` is in the recognised set. -/
theorem c6_recognized_name_set_witness :
    createQuery (.doc (vNamed "getMetadata")) = .ok none ∧
      "getVersion" ∈ recognizedNames :=
  ⟨c6_recognized_name_set.1 (vNamed "getMetadata") "getMetadata" rfl
     (by decide),
   by decide⟩

/-- Claim C7: `saveFilterState` extracts `args[0]` as a string and
`args[1]` as a boolean and constructs the command with exactly those two
values; when `args[1]` is not a boolean, construction fails with the
shape-mismatch exception. -/
theorem c7_save_filter_state (v : Value)
    (hname : asString (v.get "name") = .ok "saveFilterState") :
    (∀ n b, asString ((v.get "args").nth 0) = .ok n →
        asBool ((v.get "args").nth 1) = .ok b →
        createQuery (.doc v) = .ok (some (.saveFilterState n b))) ∧
    (∀ n m s, asString ((v.get "args").nth 0) = .ok n →
        asBool ((v.get "args").nth 1) = .error (.representationException m s) →
        createQuery (.doc v) = .error (.representationException m s)) := by
  have hred : createQuery (.doc v) =
      (match asString ((v.get "args").nth 0) with
       | .error e => .error e
       | .ok fname =>
         match asBool ((v.get "args").nth 1) with
         | .error e => .error e
         | .ok state => .ok (some (.saveFilterState fname state))) := by
    rw [createQuery_doc v "saveFilterState" hname]
    rfl
  constructor
  · intro n b h0 h1
    rw [hred, h0, h1]
  · intro n m s h0 h1
    rw [hred, h0, h1]

/-- Witness for C7 at `["myFilter", true]` (success) and
`["myFilter", "notABoolean"]` (shape failure). -/
theorem c7_save_filter_state_witness :
    createQuery (.doc vSaveFilterOk) =
        .ok (some (.saveFilterState "myFilter" true)) ∧
      createQuery (.doc vSaveFilterBad) =
        .error (.representationException ⟨9, 0, 9⟩ badConversionMsg) :=
  ⟨(c7_save_filter_state vSaveFilterOk rfl).1 "myFilter" true rfl rfl,
   (c7_save_filter_state vSaveFilterBad rfl).2 "myFilter" ⟨9, 0, 9⟩
     badConversionMsg rfl rfl⟩

/-- Claim C8: when `args[0]` of an `applySort` request extracts as a list
of strings, the command is constructed with exactly that list; and
extraction of a sequence of string scalars yields the element values in
their original order. -/
theorem c8_apply_sort :
    (∀ v l, asString (Value.get v "name") = .ok "applySort" →
        asStringList ((Value.get v "args").nth 0) = .ok l →
        createQuery (.doc v) = .ok (some (.applySort l))) ∧
    (∀ (m : Mark) (ss : List String),
        asStringList (.seq m (ss.map (Value.scalar m))) = .ok ss) := by
  constructor
  · intro v l hname hargs
    have hred : createQueryForName v "applySort" =
        (match asStringList ((v.get "args").nth 0) with
         | Except.error e => Except.error e
         | Except.ok plugins => Except.ok (some (Query.applySort plugins))) := rfl
    rw [createQuery_doc v "applySort" hname, hred, hargs]
  · intro m ss
    induction ss with
    | nil => rfl
    | cons s ss ih =>
      have ih2 : asStringSeq (List.map (Value.scalar m) ss) = Except.ok ss := ih
      simp only [asStringList, List.map, asStringSeq, asString, ih2]

/-- Witness for C8 at `{"name":"applySort","args":[["a.esp","b.esp"]]}`. -/
theorem c8_apply_sort_witness :
    createQuery (.doc vApplySort) =
        .ok (some (.applySort ["a.esp", "b.esp"])) ∧
      asStringList (.seq ⟨3, 0, 3⟩
          [Value.scalar ⟨3, 0, 3⟩ "a.esp", Value.scalar ⟨3, 0, 3⟩ "b.esp"]) =
        .ok ["a.esp", "b.esp"] :=
  ⟨c8_apply_sort.1 vApplySort ["a.esp", "b.esp"] rfl rfl,
   c8_apply_sort.2 ⟨3, 0, 3⟩ ["a.esp", "b.esp"]⟩

/-- Claim C9: `closeSettings` first builds the populated settings object by
parsing the `args[0]` sub-document (`LootSettings.load`), then constructs
the command holding exactly that populated settings object. -/
theorem c9_close_settings (v : Value)
    (hname : asString (v.get "name") = .ok "closeSettings") :
    createQuery (.doc v) =
      .ok (some (.closeSettings (LootSettings.load ((v.get "args").nth 0)))) := by
  rw [createQuery_doc v "closeSettings" hname]
  rfl

/-- Witness for C9 at a `closeSettings` request with a settings document. -/
theorem c9_close_settings_witness :
    createQuery (.doc (vWithArg "closeSettings" vSettingsDoc)) =
      .ok (some (.closeSettings ⟨vSettingsDoc⟩)) :=
  c9_close_settings (vWithArg "closeSettings" vSettingsDoc) rfl

/-- Claim C10: a well-formed request named `copyContent` always constructs
the command, whatever `args[0]` is — the raw decoded node (possibly the
undefined node) is passed through without typed extraction, so no
argument-shape failure is possible for it. -/
theorem c10_copy_content (v : Value)
    (hname : asString (v.get "name") = .ok "copyContent") :
    createQuery (.doc v) =
      .ok (some (.copyContent ((v.get "args").nth 0))) := by
  rw [createQuery_doc v "copyContent" hname]
  rfl

/-- Witness for C10 at a `copyContent` request with no `args` at all: the
command is still constructed, holding the undefined node. -/
theorem c10_copy_content_witness :
    createQuery (.doc (vNamed "copyContent")) =
      .ok (some (.copyContent .undefined)) :=
  c10_copy_content (vNamed "copyContent") rfl

end Loot
